import Mathlib

/-!
Shallow embedding of `src/vizbot/core/trainer.py` (repository SRTjiawei/mindpark).

The trainer coordinates episode execution against an environment/agent pair,
keeps shared session counters, reports epoch statistics, and performs a
coordinated shutdown.  The embedding models:

* the trainer's mutable fields as an explicit `TrainerState` record
  (rewards/scores are rationals standing in for Python floats);
* one sequential execution of `run_episode` as a state transformer that also
  emits an observable event trace (agent callbacks, environment interactions,
  epoch reports, environment closes, score persistence) and an optional
  exception (`raise` in Python becomes the `exn` component);
* the agent/environment pair abstractly as an `EpisodeScript`: the per-step
  rewards of the interaction steps that complete, followed by either the
  `StopEpisode` end-of-episode signal or a fault raised by the agent or the
  environment.  A fault occurring anywhere inside an iteration before the
  `self._timestep += 1` increment is represented as a fault at the start of
  the next iteration, which yields the same state effects.
* environment instances as numeric ids (`create_env` is parametrised by the
  id `fresh` of the base instance it builds), so that registration in
  `self._envs` and closing can be tracked;
* disk writes (experience records, the scores file) as trace events; the
  `experience` buffer bookkeeping itself has no effect on the trainer's
  shared state and is not needed by any property below.

Locks are modelled by sequential (atomic) execution of each `run_episode`
call; the syntactic lock layout of the body of `run_episode` is additionally
embedded in `run_episode_lock_layout` for the property about which
statements run under the session lock.
-/

namespace Vizbot

/-- Observable events of one trainer session. -/
inductive Ev where
  | agentStart : Ev
  | envReset : Bool → Ev
  | agentStep : Ev
  | envStep : Ev
  | agentExperience : Ev
  | agentStop : Ev
  | report : Nat → Nat → ℚ → Ev
  | envClose : Nat → Ev
  | storeScores : Ev
deriving DecidableEq

/-- Exceptions that can escape `run_episode`: the `StopTraining` signal raised
when the session is no longer running, or a fault of the agent/environment
propagating uncaught. -/
inductive TrainerExn where
  | stopTraining : TrainerExn
  | fault : TrainerExn
deriving DecidableEq

/-- How an episode's interaction loop ends: with the `StopEpisode` signal from
the environment, or with a fault raised by the agent or the environment. -/
inductive EpisodeOutcome where
  | stopEpisode : EpisodeOutcome
  | fault : EpisodeOutcome
deriving DecidableEq

/-- Abstract behaviour of one agent/environment episode: the rewards of the
interaction steps that complete, then the terminating outcome. -/
structure EpisodeScript where
  rewards : List ℚ
  outcome : EpisodeOutcome
deriving DecidableEq

/-- The mutable fields of a `Trainer` object.  `directory` records whether a
results directory was configured; `preprocesses` keeps one token per recorded
preprocessor spec; `envs` is the registry `self._envs` of environment ids. -/
structure TrainerState where
  timesteps : Nat
  epoch_size : Nat
  videos : Nat
  directory : Bool
  experience : Bool
  envs : List Nat
  preprocesses : List Unit
  scores : List ℚ
  epoch : Nat
  episode : Nat
  timestep : Nat
  running : Bool
deriving DecidableEq

/-- `Trainer.__init__`: `epoch_size or timesteps // 100` makes both `None`
and `0` fall back to the default. -/
def mkTrainer (directory : Bool) (timesteps : Nat) (epoch_size : Option Nat)
    (videos : Nat) (experience : Bool) : TrainerState :=
  { timesteps := timesteps
    epoch_size := match epoch_size with
      | some e => if e = 0 then timesteps / 100 else e
      | none => timesteps / 100
    videos := videos
    directory := directory
    experience := experience
    envs := []
    preprocesses := []
    scores := []
    epoch := 0
    episode := 0
    timestep := 0
    running := true }

/-- `Trainer.add_preprocess`: raises `RuntimeError` (modelled as `none`) when
`self._envs` is non-empty, otherwise appends the spec. -/
def add_preprocess (p : Unit) (s : TrainerState) : Option TrainerState :=
  if s.envs ≠ [] then none
  else some { s with preprocesses := s.preprocesses ++ [p] }

/-- `Trainer.create_env`: builds the base `GymEnv` (instance id `fresh`), then
wraps it once per recorded preprocessor; each wrapper instance — and only the
wrappers — is appended to `self._envs`.  Returns the new registry together
with the instance the caller receives (the outermost wrapper, or the base
instance when there are no preprocessors). -/
def create_env (fresh : Nat) (s : TrainerState) : TrainerState × Nat :=
  let env := fresh
  let r := s.preprocesses.foldl
    (fun (acc : Nat × List Nat) _ => (acc.1 + 1, acc.2 ++ [acc.1 + 1]))
    (env, s.envs)
  ({ s with envs := r.2 }, r.1)

/-- `Trainer._video_callback`: ignores the episode number passed by the
environment and uses the trainer's current `self.episode` counter. -/
def _video_callback (env_episode : Nat) (s : TrainerState) : Bool :=
  if s.videos = 0 then false
  else decide (s.episode % s.videos = 0)

/-- Result of the interaction loop of `_run_episode`: accumulated score,
updated global timestep counter, and the events of the completed steps. -/
structure StepsOut where
  score : ℚ
  timestep : Nat
  trace : List Ev
deriving DecidableEq

/-- The `while True` loop of `_run_episode`: per completed iteration, the
agent picks an action, the environment steps yielding a reward, the agent is
fed the transition, the score accumulates and `self._timestep` increments. -/
def runSteps : List ℚ → ℚ → Nat → StepsOut
  | [], score, timestep => ⟨score, timestep, []⟩
  | r :: rest, score, timestep =>
    let t := runSteps rest (score + r) (timestep + 1)
    ⟨t.score, t.timestep, Ev.agentStep :: Ev.envStep :: Ev.agentExperience :: t.trace⟩

/-- Result of `_run_episode`: new trainer state, the value the function
returns (the score), the event trace, and the escaping exception if any. -/
structure EpOut where
  state : TrainerState
  ret : ℚ
  trace : List Ev
  exn : Option TrainerExn
deriving DecidableEq

/-- `Trainer._run_episode`: `agent.start()`, `env.reset()` (during which the
environment queries `_video_callback` to decide video recording), the
interaction loop, and — only when the loop ended with `StopEpisode` —
`agent.stop()` and the `return score`.  Any other fault propagates uncaught,
skipping `agent.stop()` and the return.  Writing the experience record is a
disk effect with no impact on the trainer state. -/
def _run_episode (script : EpisodeScript) (s : TrainerState) : EpOut :=
  let video := _video_callback 0 s
  let t := runSteps script.rewards 0 s.timestep
  match script.outcome with
  | EpisodeOutcome.fault =>
    ⟨{ s with timestep := t.timestep }, t.score,
      Ev.agentStart :: Ev.envReset video :: t.trace, some TrainerExn.fault⟩
  | EpisodeOutcome.stopEpisode =>
    ⟨{ s with timestep := t.timestep }, t.score,
      Ev.agentStart :: Ev.envReset video :: (t.trace ++ [Ev.agentStop]), none⟩

/-- Python slice `xs[-k:]` on a list: the whole list when `k = 0`, otherwise
the last `k` elements (fewer when the list is shorter). -/
def lastSlice (k : Nat) (xs : List ℚ) : List ℚ :=
  if k = 0 then xs else xs.drop (xs.length - k)

/-- `sum(score) / len(score)` of `_next_epoch` (division by the length). -/
def avg (xs : List ℚ) : ℚ := xs.sum / (xs.length : ℚ)

/-- `Trainer._next_epoch`: increments the epoch counter and prints the report
with the new epoch id, the timestep total and the mean of
`self._scores[-self._epoch_size:]`. -/
def _next_epoch (s : TrainerState) : TrainerState × List Ev :=
  let s' := { s with epoch := s.epoch + 1 }
  (s', [Ev.report s'.epoch s'.timestep (avg (lastSlice s'.epoch_size s'.scores))])

/-- `Trainer._stop_training`: clears the running flag, closes each registered
environment (in registry order, under its own lock), then `_store_scores`
persists the score history. -/
def _stop_training (s : TrainerState) : TrainerState × List Ev :=
  ({ s with running := false }, s.envs.map Ev.envClose ++ [Ev.storeScores])

/-- The final `with self._lock` block of `run_episode`: the epoch-boundary
check (guarded by `self._running`) and the stop-threshold check. -/
def bookkeeping (s3 : TrainerState) : TrainerState × List Ev :=
  let r4 := if s3.running = true ∧ (s3.epoch + 1) * s3.epoch_size ≤ s3.timestep
    then _next_epoch s3 else (s3, [])
  let r5 := if r4.1.timesteps ≤ r4.1.timestep then _stop_training r4.1 else (r4.1, [])
  (r5.1, r4.2 ++ r5.2)

/-- Result of one `run_episode` call: new trainer state, emitted events, and
the escaping exception if any. -/
structure RunOut where
  state : TrainerState
  trace : List Ev
  exn : Option TrainerExn
deriving DecidableEq

/-- `Trainer.run_episode`: raise `StopTraining` when not running; allocate the
next episode id under the session lock; run the episode under the
environment's lock; append the score (outside any lock in the source); then
the epoch/stop bookkeeping under the session lock.  An exception from
`_run_episode` propagates, skipping the append and the bookkeeping. -/
def run_episode (script : EpisodeScript) (s : TrainerState) : RunOut :=
  if s.running = false then ⟨s, [], some TrainerExn.stopTraining⟩ else
  let s1 : TrainerState := { s with episode := s.episode + 1 }
  let ep := _run_episode script s1
  match ep.exn with
  | some e => ⟨ep.state, ep.trace, some e⟩
  | none =>
    let s3 : TrainerState := { ep.state with scores := ep.state.scores ++ [ep.ret] }
    let r := bookkeeping s3
    ⟨r.1, ep.trace ++ r.2, none⟩

/-- Result of a sequence of `run_episode` calls. -/
structure ManyOut where
  state : TrainerState
  trace : List Ev
  exns : List (Option TrainerExn)
deriving DecidableEq

/-- Sequential execution of a list of `run_episode` calls against the same
trainer, threading the state (Python objects keep their mutated fields even
when a call raises) and collecting traces and per-call exceptions. -/
def runEpisodes : List EpisodeScript → TrainerState → ManyOut
  | [], s => ⟨s, [], []⟩
  | sc :: rest, s =>
    let o := run_episode sc s
    let m := runEpisodes rest o.state
    ⟨m.state, o.trace ++ m.trace, o.exn :: m.exns⟩

/-- Lock held while a statement of `run_episode` executes. -/
inductive LockCtx where
  | noLock : LockCtx
  | sessionLock : LockCtx
  | envLock : LockCtx
deriving DecidableEq

/-- The statements of the body of `run_episode`, in source order. -/
inductive Stmt where
  | checkRunning : Stmt
  | allocEpisodeId : Stmt
  | execEpisode : Stmt
  | appendScore : Stmt
  | epochCheck : Stmt
  | stopCheck : Stmt
deriving DecidableEq

/-- The lock layout of `run_episode` as written in the source: which lock is
held by the `with` block (if any) around each statement. -/
def run_episode_lock_layout : List (Stmt × LockCtx) :=
  [ (Stmt.checkRunning, LockCtx.noLock)
  , (Stmt.allocEpisodeId, LockCtx.sessionLock)
  , (Stmt.execEpisode, LockCtx.envLock)
  , (Stmt.appendScore, LockCtx.noLock)
  , (Stmt.epochCheck, LockCtx.sessionLock)
  , (Stmt.stopCheck, LockCtx.sessionLock) ]

/-! Concrete trainers used as inputs of witnesses and counterexamples. -/

/-- A trainer fresh out of the constructor: budget 100 timesteps, epoch size
50, video recording disabled, no preprocessors. -/
def demoTrainer : TrainerState := mkTrainer true 100 (some 50) 0 false

/-- `demoTrainer` with one preprocessor recorded. -/
def demoTrainerP : TrainerState := { demoTrainer with preprocesses := [()] }

/-- A trainer whose session has stopped running. -/
def stoppedTrainer : TrainerState := { demoTrainer with running := false }

/-- A fresh trainer with `videos = 3` and a budget large enough that the first
episode triggers neither an epoch report nor the shutdown. -/
def videoTrainer : TrainerState := mkTrainer true 1000 (some 1000) 3 false

/-- `videoTrainer` after two episodes have been allocated, about to run the
episode with id 2. -/
def videoTrainer2 : TrainerState := { videoTrainer with episode := 2 }

/-- A trainer one step short of the timestep budget. -/
def almostDoneTrainer : TrainerState := { demoTrainer with timestep := 99 }

/-- A fresh trainer with epoch size 1, so the first episode crosses an epoch
boundary. -/
def epochTrainer : TrainerState := mkTrainer true 1000 (some 1) 0 false

/-! Facts about the interaction loop. -/

theorem runSteps_score (rws : List ℚ) (sc : ℚ) (ts : Nat) :
    (runSteps rws sc ts).score = sc + rws.sum := by
  induction rws generalizing sc ts with
  | nil => simp [runSteps]
  | cons r rest ih => simp [runSteps, ih]; ring

theorem runSteps_timestep (rws : List ℚ) (sc : ℚ) (ts : Nat) :
    (runSteps rws sc ts).timestep = ts + rws.length := by
  induction rws generalizing sc ts with
  | nil => simp [runSteps]
  | cons r rest ih => simp [runSteps, ih]; omega

theorem runSteps_trace_mem (rws : List ℚ) (sc : ℚ) (ts : Nat) :
    ∀ e ∈ (runSteps rws sc ts).trace,
      e = Ev.agentStep ∨ e = Ev.envStep ∨ e = Ev.agentExperience := by
  induction rws generalizing sc ts with
  | nil => simp [runSteps]
  | cons r rest ih =>
    intro e he
    simp only [runSteps, List.mem_cons] at he
    rcases he with h | h | h | h
    · exact Or.inl h
    · exact Or.inr (Or.inl h)
    · exact Or.inr (Or.inr h)
    · exact ih _ _ e h

theorem runSteps_no_store (rws : List ℚ) (sc : ℚ) (ts : Nat) :
    Ev.storeScores ∉ (runSteps rws sc ts).trace := by
  intro hm
  rcases runSteps_trace_mem rws sc ts _ hm with h | h | h <;> simp at h

theorem runSteps_no_agentStop (rws : List ℚ) (sc : ℚ) (ts : Nat) :
    Ev.agentStop ∉ (runSteps rws sc ts).trace := by
  intro hm
  rcases runSteps_trace_mem rws sc ts _ hm with h | h | h <;> simp at h

theorem runSteps_no_report (rws : List ℚ) (sc : ℚ) (ts : Nat) (e t : Nat) (q : ℚ) :
    Ev.report e t q ∉ (runSteps rws sc ts).trace := by
  intro hm
  rcases runSteps_trace_mem rws sc ts _ hm with h | h | h <;> simp at h

theorem runSteps_no_envReset (rws : List ℚ) (sc : ℚ) (ts : Nat) (b : Bool) :
    Ev.envReset b ∉ (runSteps rws sc ts).trace := by
  intro hm
  rcases runSteps_trace_mem rws sc ts _ hm with h | h | h <;> simp at h

/-! Facts about `_run_episode`. -/

theorem _run_episode_state (script : EpisodeScript) (s : TrainerState) :
    (_run_episode script s).state
      = { s with timestep := s.timestep + script.rewards.length } := by
  cases h : script.outcome <;> simp [_run_episode, h, runSteps_timestep]

theorem _run_episode_ret (script : EpisodeScript) (s : TrainerState) :
    (_run_episode script s).ret = script.rewards.sum := by
  cases h : script.outcome <;> simp [_run_episode, h, runSteps_score]

theorem _run_episode_exn_eq (script : EpisodeScript) (s : TrainerState) :
    (_run_episode script s).exn
      = (if script.outcome = EpisodeOutcome.fault then some TrainerExn.fault
          else none) := by
  cases h : script.outcome <;> simp [_run_episode, h]

theorem _run_episode_trace_fault (script : EpisodeScript) (s : TrainerState)
    (h : script.outcome = EpisodeOutcome.fault) :
    (_run_episode script s).trace
      = Ev.agentStart :: Ev.envReset (_video_callback 0 s)
          :: (runSteps script.rewards 0 s.timestep).trace := by
  simp [_run_episode, h]

theorem _run_episode_trace_ok (script : EpisodeScript) (s : TrainerState)
    (h : script.outcome = EpisodeOutcome.stopEpisode) :
    (_run_episode script s).trace
      = Ev.agentStart :: Ev.envReset (_video_callback 0 s)
          :: ((runSteps script.rewards 0 s.timestep).trace ++ [Ev.agentStop]) := by
  simp [_run_episode, h]

theorem _run_episode_no_store (script : EpisodeScript) (s : TrainerState) :
    Ev.storeScores ∉ (_run_episode script s).trace := by
  cases h : script.outcome
  · rw [_run_episode_trace_ok script s h]
    simp [runSteps_no_store]
  · rw [_run_episode_trace_fault script s h]
    simp [runSteps_no_store]

theorem _run_episode_no_report (script : EpisodeScript) (s : TrainerState)
    (e t : Nat) (q : ℚ) :
    Ev.report e t q ∉ (_run_episode script s).trace := by
  cases h : script.outcome
  · rw [_run_episode_trace_ok script s h]
    simp [runSteps_no_report]
  · rw [_run_episode_trace_fault script s h]
    simp [runSteps_no_report]

theorem _run_episode_envReset_mem (script : EpisodeScript) (s : TrainerState)
    (b : Bool) :
    Ev.envReset b ∈ (_run_episode script s).trace ↔ b = _video_callback 0 s := by
  cases h : script.outcome
  · rw [_run_episode_trace_ok script s h]
    simp [runSteps_no_envReset, eq_comm]
  · rw [_run_episode_trace_fault script s h]
    simp [runSteps_no_envReset, eq_comm]

/-! Facts about the final session-lock block. -/

theorem bookkeeping_state (s3 : TrainerState) :
    (bookkeeping s3).1 =
      { s3 with
        epoch := if s3.running = true ∧ (s3.epoch + 1) * s3.epoch_size ≤ s3.timestep
          then s3.epoch + 1 else s3.epoch,
        running := if s3.timesteps ≤ s3.timestep then false else s3.running } := by
  unfold bookkeeping _next_epoch _stop_training
  by_cases h1 : s3.running = true ∧ (s3.epoch + 1) * s3.epoch_size ≤ s3.timestep <;>
    by_cases h2 : s3.timesteps ≤ s3.timestep <;>
    simp [h1, h2]

theorem bookkeeping_trace (s3 : TrainerState) :
    (bookkeeping s3).2 =
      (if s3.running = true ∧ (s3.epoch + 1) * s3.epoch_size ≤ s3.timestep
        then [Ev.report (s3.epoch + 1) s3.timestep
                (avg (lastSlice s3.epoch_size s3.scores))]
        else [])
      ++ (if s3.timesteps ≤ s3.timestep
        then s3.envs.map Ev.envClose ++ [Ev.storeScores] else []) := by
  unfold bookkeeping _next_epoch _stop_training
  by_cases h1 : s3.running = true ∧ (s3.epoch + 1) * s3.epoch_size ≤ s3.timestep <;>
    by_cases h2 : s3.timesteps ≤ s3.timestep <;>
    simp [h1, h2]

/-! Case equations for `run_episode`. -/

theorem run_episode_not_running (script : EpisodeScript) (s : TrainerState)
    (h : s.running = false) :
    run_episode script s = ⟨s, [], some TrainerExn.stopTraining⟩ := by
  simp [run_episode, h]

theorem run_episode_fault (script : EpisodeScript) (s : TrainerState)
    (hr : s.running = true) (hf : script.outcome = EpisodeOutcome.fault) :
    run_episode script s =
      ⟨{ s with
          episode := s.episode + 1
          timestep := s.timestep + script.rewards.length },
        (_run_episode script { s with episode := s.episode + 1 }).trace,
        some TrainerExn.fault⟩ := by
  obtain ⟨rws, outc⟩ := script
  cases outc
  · simp at hf
  · simp [run_episode, _run_episode, hr, runSteps_timestep]

theorem run_episode_ok (script : EpisodeScript) (s : TrainerState)
    (hr : s.running = true) (hok : script.outcome = EpisodeOutcome.stopEpisode) :
    run_episode script s =
      ⟨{ s with
          episode := s.episode + 1
          timestep := s.timestep + script.rewards.length
          scores := s.scores ++ [script.rewards.sum]
          epoch := if (s.epoch + 1) * s.epoch_size ≤ s.timestep + script.rewards.length
            then s.epoch + 1 else s.epoch
          running := if s.timesteps ≤ s.timestep + script.rewards.length
            then false else true },
        (_run_episode script { s with episode := s.episode + 1 }).trace
          ++ ((if (s.epoch + 1) * s.epoch_size ≤ s.timestep + script.rewards.length
            then [Ev.report (s.epoch + 1) (s.timestep + script.rewards.length)
                (avg (lastSlice s.epoch_size (s.scores ++ [script.rewards.sum])))]
            else [])
          ++ (if s.timesteps ≤ s.timestep + script.rewards.length
            then s.envs.map Ev.envClose ++ [Ev.storeScores] else [])),
        none⟩ := by
  obtain ⟨rws, outc⟩ := script
  cases outc
  · simp [run_episode, _run_episode, bookkeeping_state, bookkeeping_trace, hr,
      runSteps_timestep, runSteps_score]
  · simp at hok

/-- C10: when the agent or environment faults mid-episode, `run_episode`
propagates the fault after the episode id was consumed and the timestep
counter advanced by the completed steps, while no score is appended and
`agent.stop()` is never invoked. -/
theorem fault_propagates_with_partial_state (script : EpisodeScript)
    (s : TrainerState) (hr : s.running = true)
    (hf : script.outcome = EpisodeOutcome.fault) :
    (run_episode script s).exn = some TrainerExn.fault
    ∧ (run_episode script s).state.episode = s.episode + 1
    ∧ (run_episode script s).state.timestep = s.timestep + script.rewards.length
    ∧ (run_episode script s).state.scores = s.scores
    ∧ Ev.agentStop ∉ (run_episode script s).trace := by
  rw [run_episode_fault script s hr hf]
  refine ⟨rfl, rfl, rfl, rfl, ?_⟩
  rw [_run_episode_trace_fault _ _ hf]
  simp [runSteps_no_agentStop]

/-- C10 witness: the theorem applied to a one-step episode that then faults,
on a fresh trainer. -/
theorem fault_propagates_with_partial_state_witness :
    demoTrainer.running = true
    ∧ (⟨[1], EpisodeOutcome.fault⟩ : EpisodeScript).outcome = EpisodeOutcome.fault
    ∧ ((run_episode ⟨[1], EpisodeOutcome.fault⟩ demoTrainer).exn
        = some TrainerExn.fault
      ∧ (run_episode ⟨[1], EpisodeOutcome.fault⟩ demoTrainer).state.episode
        = demoTrainer.episode + 1
      ∧ (run_episode ⟨[1], EpisodeOutcome.fault⟩ demoTrainer).state.timestep
        = demoTrainer.timestep + ([(1 : ℚ)]).length
      ∧ (run_episode ⟨[1], EpisodeOutcome.fault⟩ demoTrainer).state.scores
        = demoTrainer.scores
      ∧ Ev.agentStop ∉ (run_episode ⟨[1], EpisodeOutcome.fault⟩ demoTrainer).trace) :=
  ⟨rfl, rfl, fault_propagates_with_partial_state _ _ rfl rfl⟩

/-- C3 (amended): a `run_episode` call while not running raises the
`StopTraining` signal (exception channel), leaves every counter and the score
history unchanged, and performs no agent or environment interaction. -/
theorem stop_raises_without_interaction (script : EpisodeScript)
    (s : TrainerState) (h : s.running = false) :
    run_episode script s = ⟨s, [], some TrainerExn.stopTraining⟩ :=
  run_episode_not_running script s h

/-- C3 witness: the amended theorem applied to a stopped trainer. -/
theorem stop_raises_without_interaction_witness :
    stoppedTrainer.running = false
    ∧ run_episode ⟨[1], EpisodeOutcome.stopEpisode⟩ stoppedTrainer
        = ⟨stoppedTrainer, [], some TrainerExn.stopTraining⟩ :=
  ⟨rfl, stop_raises_without_interaction _ _ rfl⟩

/-- C4 (amended): for a normally completed episode the runner returns only
the accumulated score — the sum of the per-step rewards; the step count is
added to the global timestep counter instead of being returned, and the agent
is notified the episode ended. -/
theorem episode_runner_returns_score_only (script : EpisodeScript)
    (s : TrainerState) (h : script.outcome = EpisodeOutcome.stopEpisode) :
    (_run_episode script s).ret = script.rewards.sum
    ∧ (_run_episode script s).state.timestep = s.timestep + script.rewards.length
    ∧ Ev.agentStop ∈ (_run_episode script s).trace := by
  refine ⟨_run_episode_ret script s, ?_, ?_⟩
  · rw [_run_episode_state]
  · rw [_run_episode_trace_ok script s h]
    simp

/-- C4 witness: the amended theorem applied to a one-step episode. -/
theorem episode_runner_returns_score_only_witness :
    (⟨[2], EpisodeOutcome.stopEpisode⟩ : EpisodeScript).outcome
        = EpisodeOutcome.stopEpisode
    ∧ ((_run_episode ⟨[2], EpisodeOutcome.stopEpisode⟩ demoTrainer).ret
        = ([(2 : ℚ)]).sum
      ∧ (_run_episode ⟨[2], EpisodeOutcome.stopEpisode⟩ demoTrainer).state.timestep
        = demoTrainer.timestep + ([(2 : ℚ)]).length
      ∧ Ev.agentStop ∈ (_run_episode ⟨[2], EpisodeOutcome.stopEpisode⟩ demoTrainer).trace) :=
  ⟨rfl, episode_runner_returns_score_only _ _ rfl⟩

/-- C8 (amended): during a `run_episode` call the video flag queried by the
environment is computed from the trainer's current episode counter, which is
already one past the id of the running episode: the episode with id `k` is
flagged iff `videos ≠ 0` and `(k + 1) % videos = 0` (so with period 3 the
episodes 2, 5, 8, … are flagged, and period 0 never flags). -/
theorem video_flag_uses_incremented_counter (script : EpisodeScript)
    (s : TrainerState) (hr : s.running = true) :
    (Ev.envReset true ∈ (run_episode script s).trace
      ↔ s.videos ≠ 0 ∧ (s.episode + 1) % s.videos = 0) := by
  cases hsc : script.outcome
  case stopEpisode =>
    rw [run_episode_ok script s hr hsc]
    by_cases hfire :
        (s.epoch + 1) * s.epoch_size ≤ s.timestep + script.rewards.length <;>
      by_cases hstop : s.timesteps ≤ s.timestep + script.rewards.length <;>
      simp [hfire, hstop, _run_episode_envReset_mem, _video_callback]
  case fault =>
    rw [run_episode_fault script s hr hsc]
    rw [show (⟨{ s with
          episode := s.episode + 1
          timestep := s.timestep + script.rewards.length },
        (_run_episode script { s with episode := s.episode + 1 }).trace,
        some TrainerExn.fault⟩ : RunOut).trace
      = (_run_episode script { s with episode := s.episode + 1 }).trace from rfl]
    rw [_run_episode_envReset_mem]
    simp [_video_callback]

/-- C8 witness: the amended theorem applied to the episode with id 2 of a
trainer with video period 3, which is flagged. -/
theorem video_flag_uses_incremented_counter_witness :
    videoTrainer2.running = true
    ∧ (Ev.envReset true
        ∈ (run_episode ⟨[1], EpisodeOutcome.stopEpisode⟩ videoTrainer2).trace
      ↔ videoTrainer2.videos ≠ 0
        ∧ (videoTrainer2.episode + 1) % videoTrainer2.videos = 0) :=
  ⟨rfl, video_flag_uses_incremented_counter _ _ rfl⟩

/-! Counting the shutdown events of a call sequence. -/

theorem run_episode_store_count (script : EpisodeScript) (s : TrainerState)
    (hr : s.running = true) :
    (run_episode script s).trace.count Ev.storeScores
      = if (run_episode script s).state.running = true then 0 else 1 := by
  cases hsc : script.outcome
  case stopEpisode =>
    have hz : List.count Ev.storeScores (List.map Ev.envClose s.envs) = 0 :=
      List.count_eq_zero.mpr (by simp)
    rw [run_episode_ok script s hr hsc]
    by_cases hstop : s.timesteps ≤ s.timestep + script.rewards.length <;>
      by_cases hfire :
        (s.epoch + 1) * s.epoch_size ≤ s.timestep + script.rewards.length <;>
      simp [hstop, hfire, List.count_append, hz,
        List.count_eq_zero.mpr (_run_episode_no_store _ _)]
  case fault =>
    rw [run_episode_fault script s hr hsc]
    simp [hr, List.count_eq_zero.mpr (_run_episode_no_store _ _)]

theorem runEpisodes_not_running (scs : List EpisodeScript) (s : TrainerState)
    (h : s.running = false) :
    (runEpisodes scs s).state = s ∧ (runEpisodes scs s).trace = [] := by
  induction scs with
  | nil => exact ⟨rfl, rfl⟩
  | cons sc rest ih =>
    have h1 := run_episode_not_running sc s h
    simp only [runEpisodes, h1]
    exact ⟨ih.1, by simpa using ih.2⟩

theorem runEpisodes_store_count (scs : List EpisodeScript) (s : TrainerState) :
    (runEpisodes scs s).trace.count Ev.storeScores
      = if (runEpisodes scs s).state.running = true then 0
        else if s.running = true then 1 else 0 := by
  induction scs generalizing s with
  | nil => cases hb : s.running <;> simp [runEpisodes, hb]
  | cons sc rest ih =>
    cases hb : s.running
    case false =>
      have h1 := run_episode_not_running sc s hb
      have h3 := runEpisodes_not_running rest s hb
      simp only [runEpisodes, h1]
      simp [h3.1, h3.2, hb]
    case true =>
      have hc := run_episode_store_count sc s hb
      cases hmid : (run_episode sc s).state.running
      case true =>
        simp only [runEpisodes, List.count_append, hc, hmid, if_true]
        rw [ih _]
        simp [hmid, hb]
      case false =>
        have h3 := runEpisodes_not_running rest _ hmid
        simp only [runEpisodes, List.count_append, hc, hmid]
        simp [h3.1, h3.2, hmid, hb]

/-! Timestep accounting of a call sequence. -/

theorem run_episode_exn_none_timestep (script : EpisodeScript) (s : TrainerState)
    (hn : (run_episode script s).exn = none) :
    (run_episode script s).state.timestep = s.timestep + script.rewards.length := by
  cases hb : s.running
  case false =>
    rw [run_episode_not_running script s hb] at hn
    simp at hn
  case true =>
    cases hsc : script.outcome
    case stopEpisode => rw [run_episode_ok script s hb hsc]
    case fault =>
      rw [run_episode_fault script s hb hsc] at hn
      simp at hn

theorem run_episode_timestep_mono (script : EpisodeScript) (s : TrainerState) :
    s.timestep ≤ (run_episode script s).state.timestep := by
  cases hb : s.running
  case false => rw [run_episode_not_running script s hb]
  case true =>
    cases hsc : script.outcome
    case stopEpisode => rw [run_episode_ok script s hb hsc]; simp
    case fault => rw [run_episode_fault script s hb hsc]; simp

theorem runEpisodes_timestep_mono (scs : List EpisodeScript) (s : TrainerState) :
    s.timestep ≤ (runEpisodes scs s).state.timestep := by
  induction scs generalizing s with
  | nil => simp [runEpisodes]
  | cons sc rest ih =>
    simp only [runEpisodes]
    exact le_trans (run_episode_timestep_mono sc s) (ih _)

theorem runEpisodes_timestep_sum (scs : List EpisodeScript) (s : TrainerState)
    (h : ∀ o ∈ (runEpisodes scs s).exns, o = none) :
    (runEpisodes scs s).state.timestep
      = s.timestep + (scs.map fun sc => sc.rewards.length).sum := by
  induction scs generalizing s with
  | nil => simp [runEpisodes]
  | cons sc rest ih =>
    simp only [runEpisodes, List.mem_cons] at h
    have h1 : (run_episode sc s).exn = none := h _ (Or.inl rfl)
    have h2 : ∀ o ∈ (runEpisodes rest (run_episode sc s).state).exns, o = none :=
      fun o ho => h o (Or.inr ho)
    simp only [runEpisodes]
    rw [ih _ h2, run_episode_exn_none_timestep sc s h1]
    simp
    omega

/-- C1: over any sequence of `run_episode` calls from a running session the
shutdown sequence (close registered environments, persist scores) executes at
most once — exactly once iff the running flag transitioned to false — and a
normally completing call transitions the flag iff its episode pushed the
timestep counter to the budget. -/
theorem shutdown_runs_at_most_once (scripts : List EpisodeScript)
    (s₀ : TrainerState) (script : EpisodeScript) (s : TrainerState)
    (h : s₀.running = true) (h1 : s.running = true)
    (h2 : (run_episode script s).exn = none) :
    ((runEpisodes scripts s₀).trace.count Ev.storeScores
      = if (runEpisodes scripts s₀).state.running = true then 0 else 1)
    ∧ ((run_episode script s).state.running = false
      ↔ s.timesteps ≤ (run_episode script s).state.timestep) := by
  constructor
  · rw [runEpisodes_store_count]
    simp [h]
  · cases hsc : script.outcome
    case stopEpisode =>
      rw [run_episode_ok script s h1 hsc]
      by_cases hstop : s.timesteps ≤ s.timestep + script.rewards.length <;>
        simp [hstop]
    case fault =>
      rw [run_episode_fault script s h1 hsc] at h2
      simp at h2

/-- C1 witness: one completed episode that stays below the budget, and one
completed episode that crosses it. -/
theorem shutdown_runs_at_most_once_witness :
    demoTrainer.running = true ∧ almostDoneTrainer.running = true
    ∧ (run_episode ⟨[1, 1], EpisodeOutcome.stopEpisode⟩ almostDoneTrainer).exn
        = none
    ∧ (((runEpisodes [⟨[1], EpisodeOutcome.stopEpisode⟩] demoTrainer).trace.count
          Ev.storeScores
        = if (runEpisodes [⟨[1], EpisodeOutcome.stopEpisode⟩]
              demoTrainer).state.running = true then 0 else 1)
      ∧ ((run_episode ⟨[1, 1], EpisodeOutcome.stopEpisode⟩
            almostDoneTrainer).state.running = false
        ↔ almostDoneTrainer.timesteps
            ≤ (run_episode ⟨[1, 1], EpisodeOutcome.stopEpisode⟩
                almostDoneTrainer).state.timestep)) :=
  ⟨rfl, rfl, by decide, shutdown_runs_at_most_once _ _ _ _ rfl rfl (by decide)⟩

/-- C6: after a sequence of completed episodes the timestep counter equals
its initial value plus the sum of the episodes' step counts, and the counter
never decreases across any call sequence. -/
theorem timestep_sums_step_counts (scripts : List EpisodeScript)
    (s₀ : TrainerState) (scs : List EpisodeScript) (s : TrainerState)
    (h : ∀ o ∈ (runEpisodes scripts s₀).exns, o = none) :
    ((runEpisodes scripts s₀).state.timestep
      = s₀.timestep + (scripts.map fun sc => sc.rewards.length).sum)
    ∧ s.timestep ≤ (runEpisodes scs s).state.timestep :=
  ⟨runEpisodes_timestep_sum _ _ h, runEpisodes_timestep_mono _ _⟩

/-- C6 witness: two completed episodes of 1 and 2 steps accumulate 3
timesteps. -/
theorem timestep_sums_step_counts_witness :
    (∀ o ∈ (runEpisodes
        [⟨[1], EpisodeOutcome.stopEpisode⟩, ⟨[1, 1], EpisodeOutcome.stopEpisode⟩]
        demoTrainer).exns, o = none)
    ∧ ((runEpisodes
        [⟨[1], EpisodeOutcome.stopEpisode⟩, ⟨[1, 1], EpisodeOutcome.stopEpisode⟩]
        demoTrainer).state.timestep
      = demoTrainer.timestep
        + (([⟨[1], EpisodeOutcome.stopEpisode⟩,
            ⟨[1, 1], EpisodeOutcome.stopEpisode⟩] : List EpisodeScript).map
              fun sc => sc.rewards.length).sum)
    ∧ demoTrainer.timestep
        ≤ (runEpisodes [⟨[1], EpisodeOutcome.stopEpisode⟩]
            demoTrainer).state.timestep :=
  ⟨by decide, timestep_sums_step_counts _ _ _ _ (by decide)⟩

/-- C5: a normally completing `run_episode` call emits an epoch report iff
the post-episode timestep counter reached `(epoch + 1) * epoch_size`; when it
does, the epoch id increments by exactly one and the report carries the new
epoch id, the timestep total, and the mean of the last `epoch_size` entries
of the score history (fewer if fewer exist); otherwise the epoch id is
unchanged and no report is emitted. -/
theorem epoch_report_fires_at_boundary (script : EpisodeScript)
    (s : TrainerState) (e t : Nat) (q : ℚ)
    (hes : 0 < s.epoch_size) (hr : s.running = true)
    (hn : (run_episode script s).exn = none) :
    (((s.epoch + 1) * s.epoch_size ≤ (run_episode script s).state.timestep →
      (run_episode script s).state.epoch = s.epoch + 1
      ∧ Ev.report (s.epoch + 1) ((run_episode script s).state.timestep)
          (avg ((run_episode script s).state.scores.drop
            ((run_episode script s).state.scores.length - s.epoch_size)))
        ∈ (run_episode script s).trace))
    ∧ ((run_episode script s).state.timestep < (s.epoch + 1) * s.epoch_size →
      (run_episode script s).state.epoch = s.epoch
      ∧ Ev.report e t q ∉ (run_episode script s).trace) := by
  have hsc : script.outcome = EpisodeOutcome.stopEpisode := by
    cases hsc : script.outcome
    · rfl
    · rw [run_episode_fault script s hr hsc] at hn
      simp at hn
  have hslice : lastSlice s.epoch_size (s.scores ++ [script.rewards.sum])
      = (s.scores ++ [script.rewards.sum]).drop
          ((s.scores ++ [script.rewards.sum]).length - s.epoch_size) := by
    unfold lastSlice
    rw [if_neg (by omega)]
  rw [run_episode_ok script s hr hsc]
  constructor
  · intro hfire
    simp only at hfire
    constructor
    · simp [hfire]
    · simp [hfire, hslice]
  · intro hnofire
    simp only at hnofire
    have hfire' :
        ¬ ((s.epoch + 1) * s.epoch_size ≤ s.timestep + script.rewards.length) := by
      omega
    constructor
    · simp [hfire']
    · intro hmem
      simp only [hfire', if_false, List.nil_append, List.mem_append] at hmem
      rcases hmem with hmem | hmem
      · exact _run_episode_no_report _ _ _ _ _ hmem
      · by_cases hstop : s.timesteps ≤ s.timestep + script.rewards.length <;>
          simp [hstop] at hmem

/-- C5 witness: with epoch size 1, a one-step episode crosses the first epoch
boundary and reports the mean of the single recorded score. -/
theorem epoch_report_fires_at_boundary_witness :
    0 < epochTrainer.epoch_size ∧ epochTrainer.running = true
    ∧ (run_episode ⟨[5], EpisodeOutcome.stopEpisode⟩ epochTrainer).exn = none
    ∧ ((((epochTrainer.epoch + 1) * epochTrainer.epoch_size
          ≤ (run_episode ⟨[5], EpisodeOutcome.stopEpisode⟩
              epochTrainer).state.timestep →
        (run_episode ⟨[5], EpisodeOutcome.stopEpisode⟩ epochTrainer).state.epoch
          = epochTrainer.epoch + 1
        ∧ Ev.report (epochTrainer.epoch + 1)
            ((run_episode ⟨[5], EpisodeOutcome.stopEpisode⟩
              epochTrainer).state.timestep)
            (avg ((run_episode ⟨[5], EpisodeOutcome.stopEpisode⟩
                epochTrainer).state.scores.drop
              ((run_episode ⟨[5], EpisodeOutcome.stopEpisode⟩
                  epochTrainer).state.scores.length - epochTrainer.epoch_size)))
          ∈ (run_episode ⟨[5], EpisodeOutcome.stopEpisode⟩ epochTrainer).trace))
      ∧ ((run_episode ⟨[5], EpisodeOutcome.stopEpisode⟩
            epochTrainer).state.timestep
          < (epochTrainer.epoch + 1) * epochTrainer.epoch_size →
        (run_episode ⟨[5], EpisodeOutcome.stopEpisode⟩ epochTrainer).state.epoch
          = epochTrainer.epoch
        ∧ Ev.report 0 0 0
          ∉ (run_episode ⟨[5], EpisodeOutcome.stopEpisode⟩ epochTrainer).trace)) :=
  ⟨by decide, rfl, by decide,
    epoch_report_fires_at_boundary _ _ 0 0 0 (by decide) rfl (by decide)⟩

/-- C2: `create_env` with zero preprocessors returns the base instance (id 0)
without registering it, so `_stop_training` closes nothing; with one
preprocessor the wrapper (id 1) is registered but the base instance is still
never closed.  This contradicts the claim that every created instance is
registered and closed exactly once. -/
theorem base_env_never_registered_or_closed :
    (create_env 0 demoTrainer).2 = 0
    ∧ (create_env 0 demoTrainer).1.envs = []
    ∧ (_stop_training (create_env 0 demoTrainer).1).2 = [Ev.storeScores]
    ∧ (create_env 0 demoTrainerP).2 = 1
    ∧ (create_env 0 demoTrainerP).1.envs = [1]
    ∧ Ev.envClose 0 ∉ (_stop_training (create_env 0 demoTrainerP).1).2 := by
  decide

/-- C7: after `create_env` was called on a trainer configured with zero
preprocessors, `add_preprocess` still succeeds (the guard inspects the
registry `self._envs`, which stayed empty), contradicting the claim that it
fails once any environment has been built. -/
theorem add_preprocess_after_create_env_not_rejected :
    add_preprocess () (create_env 0 demoTrainer).1
      = some { demoTrainer with preprocesses := [()] } := by
  decide

/-- C9: in the source of `run_episode` the score append runs under no lock,
while the epoch-boundary and stop-threshold checks run under the session
lock, contradicting the claim that the append is inside the same session-lock
critical region. -/
theorem score_append_outside_session_lock :
    (Stmt.appendScore, LockCtx.noLock) ∈ run_episode_lock_layout
    ∧ (Stmt.appendScore, LockCtx.sessionLock) ∉ run_episode_lock_layout
    ∧ (Stmt.epochCheck, LockCtx.sessionLock) ∈ run_episode_lock_layout
    ∧ (Stmt.stopCheck, LockCtx.sessionLock) ∈ run_episode_lock_layout := by
  decide

/-- C3 counterexample: a `run_episode` call on a stopped trainer delivers the
stop-training signal on the exception channel (`raise StopTraining`), not as
a normal result, contradicting the claim's delivery mechanism. -/
theorem stop_signal_raised_not_returned :
    (run_episode ⟨[1], EpisodeOutcome.stopEpisode⟩ stoppedTrainer).exn
      = some TrainerExn.stopTraining
    ∧ (run_episode ⟨[1], EpisodeOutcome.stopEpisode⟩ stoppedTrainer).exn ≠ none := by
  decide

/-- C4 counterexample: two episodes with different step counts (2 steps vs
1 step) make `_run_episode` return identical values, so the value returned by
the episode runner cannot contain the step count claimed. -/
theorem episode_return_omits_step_count :
    (_run_episode ⟨[1, 1], EpisodeOutcome.stopEpisode⟩ demoTrainer).ret
      = (_run_episode ⟨[2], EpisodeOutcome.stopEpisode⟩ demoTrainer).ret
    ∧ ([(1 : ℚ), 1].length ≠ [(2 : ℚ)].length) := by
  refine ⟨?_, by decide⟩
  norm_num [_run_episode, runSteps]

/-- C8 counterexample: with `videos = 3`, episode 0 (the first episode of a
fresh trainer) is run with the video flag false — the callback reads the
already-incremented episode counter — contradicting the claim that episodes
0, 3, 6 are the flagged ones. -/
theorem episode_zero_not_flagged_with_period_three :
    videoTrainer.episode = 0 ∧ videoTrainer.videos = 3
    ∧ (run_episode ⟨[1], EpisodeOutcome.stopEpisode⟩ videoTrainer).trace
      = [Ev.agentStart, Ev.envReset false, Ev.agentStep, Ev.envStep,
         Ev.agentExperience, Ev.agentStop] := by
  decide

end Vizbot
